import Mathlib

set_option maxHeartbeats 1000000
set_option maxRecDepth 4000

/-!
Verification of the screenshot-comparison pipeline in `scripts/visual-compare.py`
(the Judge) and `scripts/compose-comparison.py` (the Composer).

Python strings are modelled as `List Char` wherever index arithmetic matters,
with `String` wrappers at the boundaries.  The Python standard library pieces
the scripts use (`str.find`, slicing, `str.strip`, `json.loads`, `dict` update
and lookup) are modelled explicitly below; the network call, the filesystem and
the environment are abstracted as function parameters of the pipeline models.
-/

/-- The backtick character, U+0060. -/
def bq : Char := Char.ofNat 96

/-- The three-backtick fence marker, the Python literal written with three backticks. -/
def bt3 : List Char := [bq, bq, bq]

/-- The json-labelled fence marker: three backticks followed by the letters json. -/
def jfence : List Char := [bq, bq, bq, 'j', 's', 'o', 'n']

/-- Whitespace characters removed by Python `str.strip()`. -/
def isPySpace (c : Char) : Bool :=
  [' ', '\t', '\n', '\r', '\x0b', '\x0c'].contains c

/-- Remove trailing Python whitespace. -/
def dropTrailing (s : List Char) : List Char :=
  (s.reverse.dropWhile isPySpace).reverse

/-- Python `str.strip()`: remove leading and trailing whitespace. -/
def pyStripL (s : List Char) : List Char :=
  dropTrailing (s.dropWhile isPySpace)

/-- Index of the first occurrence of `pat` in a list, if any.
Models the successful case of Python `str.find`. -/
def search (pat : List Char) : List Char → Option Nat
  | [] => if pat.isEmpty then some 0 else none
  | c :: r => if pat.isPrefixOf (c :: r) then some 0 else (search pat r).map (· + 1)

/-- Python `t.find(pat, start)`: first index of `pat` at or after `start`, else -1. -/
def pyFindFrom (t pat : List Char) (start : Nat) : Int :=
  match search pat (t.drop start) with
  | some k => ((start + k : Nat) : Int)
  | none => -1

/-- Python slice `t[a:b]` with a natural start index and a possibly negative end index
(a negative `b` counts from the end of the list, as in Python). -/
def pySlice (t : List Char) (a : Nat) (b : Int) : List Char :=
  let e : Nat := if b < 0 then ((t.length : Int) + b).toNat else b.toNat
  (t.take e).drop a

/-- JSON-candidate extraction of `compare_screenshots` (visual-compare.py lines 188-199):
take the inner content of a json-labelled fence if one is present, else the inner
content of any fence, else the stripped raw text.  A branch is entered exactly when
Python's `in` test succeeds, and then `find` returns the first occurrence index. -/
def extractJsonL (t : List Char) : List Char :=
  match search jfence t with
  | some k => pyStripL (pySlice t (k + 7) (pyFindFrom t bt3 (k + 7)))
  | none =>
    match search bt3 t with
    | some k => pyStripL (pySlice t (k + 3) (pyFindFrom t bt3 (k + 3)))
    | none => pyStripL t

/-- String-level wrapper of `extractJsonL`. -/
def extractJson (s : String) : String := String.mk (extractJsonL s.data)

/-- JSON values, the shape of what Python `json.loads` returns.
Integer numerals suffice for the concrete inputs considered here. -/
inductive JValue where
  | jnull : JValue
  | jbool : Bool → JValue
  | jnum : Int → JValue
  | jstr : String → JValue
  | jarr : List JValue → JValue
  | jobj : List (String × JValue) → JValue

/-- Skip JSON whitespace. -/
def skipWs : List Char → List Char
  | [] => []
  | c :: r => if [' ', '\t', '\n', '\r'].contains c then skipWs r else c :: r

/-- Decode a JSON string escape character.  The quote, backslash and slash
escapes denote themselves; the letters n, t and r denote control characters. -/
def escChar (c : Char) : Option Char :=
  if ['"', '\\', '/'].contains c then some c
  else
    match c with
    | 'n' => some '\n'
    | 't' => some '\t'
    | 'r' => some '\r'
    | _ => none

/-- Scan the body of a JSON string literal after the opening quote; return the
decoded characters and the remaining input after the closing quote. -/
def strBody (fuel : Nat) (s : List Char) : Option (List Char × List Char) :=
  match fuel, s with
  | 0, _ => none
  | _, [] => none
  | f + 1, c :: r =>
    if c == '"' then some ([], r)
    else if c == '\\' then
      match r with
      | [] => none
      | e :: r2 =>
        match escChar e with
        | none => none
        | some ec =>
          match strBody f r2 with
          | none => none
          | some (cs, rest) => some (ec :: cs, rest)
    else
      match strBody f r with
      | none => none
      | some (cs, rest) => some (c :: cs, rest)

/-- Leading decimal digits of a list and the remaining input. -/
def digitSpan : List Char → List Char × List Char
  | [] => ([], [])
  | c :: r =>
    if c.isDigit then
      let p := digitSpan r
      (c :: p.1, p.2)
    else ([], c :: r)

/-- Numeric value of a digit list. -/
def natOfDigits (ds : List Char) : Nat :=
  ds.foldl (fun n c => n * 10 + (c.toNat - 48)) 0

mutual

/-- Recursive-descent JSON value reader, a model of Python `json.loads`.
The fuel argument strictly exceeds the nesting depth whenever it is at least
the input length plus one, so `jsonParse` below never exhausts it. -/
def parseVal (fuel : Nat) (s : List Char) : Option (JValue × List Char) :=
  match fuel with
  | 0 => none
  | f + 1 =>
    match skipWs s with
    | [] => none
    | c :: r =>
      if c == '{' then
        match skipWs r with
        | '}' :: r2 => some (.jobj [], r2)
        | r2 =>
          match parseMembers f r2 with
          | none => none
          | some (ms, rest) => some (.jobj ms, rest)
      else if c == '[' then
        match skipWs r with
        | ']' :: r2 => some (.jarr [], r2)
        | r2 =>
          match parseElems f r2 with
          | none => none
          | some (es, rest) => some (.jarr es, rest)
      else if c == '"' then
        match strBody f r with
        | none => none
        | some (cs, rest) => some (.jstr (String.mk cs), rest)
      else if c == '-' then
        match digitSpan r with
        | ([], _) => none
        | (ds, rest) => some (.jnum (-(natOfDigits ds : Int)), rest)
      else if c.isDigit then
        match digitSpan (c :: r) with
        | (ds, rest) => some (.jnum ((natOfDigits ds : Int)), rest)
      else if ['t', 'r', 'u', 'e'].isPrefixOf (c :: r) then
        some (.jbool true, (c :: r).drop 4)
      else if ['f', 'a', 'l', 's', 'e'].isPrefixOf (c :: r) then
        some (.jbool false, (c :: r).drop 5)
      else if ['n', 'u', 'l', 'l'].isPrefixOf (c :: r) then
        some (.jnull, (c :: r).drop 4)
      else none

/-- Members of a JSON object after the opening brace (nonempty case). -/
def parseMembers (fuel : Nat) (s : List Char) : Option (List (String × JValue) × List Char) :=
  match fuel with
  | 0 => none
  | f + 1 =>
    match skipWs s with
    | '"' :: r =>
      match strBody f r with
      | none => none
      | some (k, rest) =>
        match skipWs rest with
        | ':' :: r2 =>
          match parseVal f r2 with
          | none => none
          | some (v, rest2) =>
            match skipWs rest2 with
            | ',' :: r3 =>
              match parseMembers f r3 with
              | none => none
              | some (ms, rest3) => some ((String.mk k, v) :: ms, rest3)
            | '}' :: r3 => some ([(String.mk k, v)], r3)
            | _ => none
        | _ => none
    | _ => none

/-- Elements of a JSON array after the opening bracket (nonempty case). -/
def parseElems (fuel : Nat) (s : List Char) : Option (List JValue × List Char) :=
  match fuel with
  | 0 => none
  | f + 1 =>
    match parseVal f s with
    | none => none
    | some (v, rest) =>
      match skipWs rest with
      | ',' :: r2 =>
        match parseElems f r2 with
        | none => none
        | some (es, rest2) => some (v :: es, rest2)
      | ']' :: r2 => some ([v], r2)
      | _ => none

end

/-- Python `json.loads` model: parse a complete JSON document or report an error
message (the message is a simplified stand-in for `json.JSONDecodeError`). -/
def jsonParse (s : String) : Except String JValue :=
  match parseVal (s.length + 1) s.data with
  | some (v, rest) => if (skipWs rest).isEmpty then .ok v else .error "Extra data"
  | none => .error "Expecting value"

/-- Response normalization of `compare_screenshots` (visual-compare.py lines 185-212):
extract the JSON candidate from the response text and parse it; on a parse failure
build the degraded dictionary with an ERROR classification, the raw response text
and the parse-error description, instead of raising.  The `json.loads` of the
script is the `parse` parameter. -/
def compareResult (parse : String → Except String JValue) (responseText : String) : JValue :=
  match parse (extractJson responseText) with
  | .ok v => v
  | .error e =>
    .jobj [("overall", .jstr "ERROR"),
           ("raw_response", .jstr responseText),
           ("parse_error", .jstr e)]

/-- Python `result[key] = val` on a JSON value: defined only when the value is a
dict (replace the binding if the key is present, else append it); on any other
value the Python statement raises a TypeError, modelled by `none`. -/
def dictSet (v : JValue) (key : String) (val : JValue) : Option JValue :=
  match v with
  | .jobj fields =>
    some (.jobj
      (if (fields.map Prod.fst).contains key
       then fields.map (fun kv => if kv.1 == key then (key, val) else kv)
       else fields ++ [(key, val)]))
  | _ => none

/-- Python `result.get(key)` on a dict: the first binding of the key, if any. -/
def dictGet (v : JValue) (key : String) : Option JValue :=
  match v with
  | .jobj fields => (fields.find? (fun kv => kv.1 == key)).map Prod.snd
  | _ => none

/-- Python `result.get("overall") == s`: true exactly when the overall field is
the string `s` (a missing key or a non-string value compares unequal). -/
def isOverall (r : JValue) (s : String) : Bool :=
  match dictGet r "overall" with
  | some (.jstr t) => t == s
  | _ => false

/-- Exit-code selection of `main` (visual-compare.py lines 268-276). -/
def exitCodeOf (r : JValue) : Nat :=
  if isOverall r "PASS" then 0
  else if isOverall r "MAJOR_DIFF" then 2
  else if isOverall r "ERROR" then 3
  else 1

/-- Python `if not api_key` on `os.environ.get("ANTHROPIC_API_KEY")`:
the credential is present exactly when the variable is set and nonempty. -/
def credentialPresent (env : String → Option String) : Bool :=
  match env "ANTHROPIC_API_KEY" with
  | none => false
  | some k => !(k == "")

/-- Outcome of one `compare_screenshots` call.  `exited` models `sys.exit`,
`raised` models an uncaught Python exception; both record whether the network
call to the judgment service had been made when the process stopped. -/
inductive CompareOutcome where
  | exited : Nat → Bool → CompareOutcome
  | raised : Bool → CompareOutcome
  | ok : JValue → CompareOutcome

/-- `compare_screenshots` (visual-compare.py lines 125-212): the import guard for
the anthropic package, the credential guard, image encoding (which raises
FileNotFoundError on a missing file), the network call — whose response text is
abstracted as the `service` parameter — and response normalization. -/
def compareScreenshots (anthropicInstalled : Bool) (env : String → Option String)
    (fileExists : String → Bool) (parse : String → Except String JValue)
    (service : String) (refP iosP : String) : CompareOutcome :=
  if !anthropicInstalled then .exited 1 false
  else if !credentialPresent env then .exited 1 false
  else if !fileExists refP then .raised false
  else if !fileExists iosP then .raised false
  else .ok (compareResult parse service)

/-- Outcome of one run of the Judge's `main`.  `exited` records the exit code,
whether the network was called, and the report serialized on the way out (if
the run reached serialization); `raised` models an uncaught exception. -/
inductive MainResult where
  | exited : Nat → Bool → Option JValue → MainResult
  | raised : Bool → MainResult

/-- `main` of visual-compare.py (lines 215-276): validate that both input files
exist, run the comparison, attach the `_metadata` dict (a plain Python item
assignment, which raises on a non-dict comparison result), serialize, and exit
with the code chosen from the overall classification. -/
def mainJudge (anthropicInstalled : Bool) (env : String → Option String)
    (fileExists : String → Bool) (parse : String → Except String JValue)
    (service : String) (refP iosP : String) : MainResult :=
  if !fileExists refP then .exited 1 false none
  else if !fileExists iosP then .exited 1 false none
  else
    match compareScreenshots anthropicInstalled env fileExists parse service refP iosP with
    | .exited c n => .exited c n none
    | .raised n => .raised n
    | .ok result =>
      match dictSet result "_metadata"
          (.jobj [("reference_path", .jstr refP), ("ios_path", .jstr iosP)]) with
      | none => .raised true
      | some r => .exited (exitCodeOf r) true (some r)

/-! ## Composer: compose-comparison.py -/

/-- Fixed vertical padding of the composed canvas. -/
def padding : Nat := 20

/-- Fixed height of the label band above the image row. -/
def labelHeight : Nat := 60

/-- Path join, modelling `Path(output_dir) / name`. -/
def pjoin (dir name : String) : String := dir ++ "/" ++ name

/-- Reference screenshot file name. -/
def refName (book chapter : String) : String :=
  "ref_" ++ book ++ "_ch" ++ chapter ++ ".png"

/-- Preferred HTML-renderer screenshot file name. -/
def htmlName (book chapter : String) : String :=
  "ios_" ++ book ++ "_ch" ++ chapter ++ "_html.png"

/-- Fallback candidate screenshot file name. -/
def fallbackName (book chapter : String) : String :=
  "ios_" ++ book ++ "_ch" ++ chapter ++ ".png"

/-- Native-renderer screenshot file name. -/
def nativeName (book chapter : String) : String :=
  "ios_" ++ book ++ "_ch" ++ chapter ++ "_native.png"

/-- Composite output file name. -/
def comparisonName (book chapter : String) : String :=
  "comparison_" ++ book ++ "_ch" ++ chapter ++ ".png"

/-- Screenshot resolution of `compose_comparison` (compose-comparison.py lines
31-62): decode each of the three role files that exists, pairing each decoded
image (modelled by its width and height, via the `dims` parameter standing for
`Image.open`) with its display label; the HTML role falls back to the generic
candidate name when its preferred name is absent. -/
def resolveSet (fileExists : String → Bool) (dims : String → Nat × Nat)
    (book chapter dir : String) : List ((Nat × Nat) × String) :=
  let refP := pjoin dir (refName book chapter)
  let htmlP0 := pjoin dir (htmlName book chapter)
  let htmlP := if fileExists htmlP0 then htmlP0 else pjoin dir (fallbackName book chapter)
  let natP := pjoin dir (nativeName book chapter)
  (if fileExists refP then [((dims refP), "Reference (EPUB.js)")] else []) ++
  (if fileExists htmlP then [((dims htmlP), "iOS HTML (WebView)")] else []) ++
  (if fileExists natP then [((dims natP), "iOS Native")] else [])

/-- Height of the tallest image, `max(img.height for img in images)`. -/
def maxHeight (imgs : List (Nat × Nat)) : Nat :=
  (imgs.map Prod.snd).foldl max 0

/-- Height normalization of one image (compose-comparison.py lines 79-84): an
image not at the target height is resized to it with the width scaled by the
same ratio (the float rounding of `int(img.width * ratio)` is modelled as the
floor `w * maxH / h`); an image already at the target height passes through. -/
def resizeTo (maxH : Nat) (img : Nat × Nat) : Nat × Nat :=
  if img.2 ≠ maxH then (img.1 * maxH / img.2, maxH) else img

/-- Horizontal label positions of the draw loop (compose-comparison.py lines
113-126): for each image and label, `text_x = x_offset + (img.width - text_width) // 2`
with Python floor division, and the offset then advances by the image width plus
padding.  The `tw` parameter models `draw.textbbox` width under the loaded font. -/
def labelXsFrom (tw : String → Nat) : Nat → List ((Nat × Nat) × String) → List Int
  | _, [] => []
  | x, (img, label) :: rest =>
    ((x : Int) + Int.fdiv ((img.1 : Int) - (tw label : Int)) 2) ::
      labelXsFrom tw (x + img.1 + padding) rest

/-- The composed canvas: its exact dimensions, the horizontal label positions,
and the output file path. -/
structure ComposeOutput where
  width : Nat
  height : Nat
  textXs : List Int
  outFile : String
deriving DecidableEq

/-- `compose_comparison` (compose-comparison.py lines 23-133): the Pillow import
guard, screenshot resolution, the minimum-of-two check (`sys.exit(1)` and no
output file, modelled by `none`), height normalization, the exact canvas size,
label layout, and the output path.  Font discovery never fails (it falls back to
the built-in default font), so the font enters only through `tw`. -/
def composeComparison (pillowInstalled : Bool) (fileExists : String → Bool)
    (dims : String → Nat × Nat) (tw : String → Nat)
    (book chapter dir : String) : Option ComposeOutput :=
  if !pillowInstalled then none
  else
    let set := resolveSet fileExists dims book chapter dir
    if set.length < 2 then none
    else
      let images := set.map Prod.fst
      let maxH := maxHeight images
      let resized := images.map (resizeTo maxH)
      let totalW := (resized.map Prod.fst).sum + padding * (resized.length + 1)
      let totalH := maxH + labelHeight + padding * 2
      some ⟨totalW, totalH, labelXsFrom tw padding (resized.zip (set.map Prod.snd)),
            pjoin dir (comparisonName book chapter)⟩

/-- Number of the three screenshot roles that resolve to an existing file:
the reference, the HTML candidate (under either its preferred or its fallback
name), and the native candidate. -/
def roleResolvedCount (fileExists : String → Bool) (book chapter dir : String) : Nat :=
  (if fileExists (pjoin dir (refName book chapter)) then 1 else 0) +
  (if fileExists (pjoin dir (htmlName book chapter)) ||
      fileExists (pjoin dir (fallbackName book chapter)) then 1 else 0) +
  (if fileExists (pjoin dir (nativeName book chapter)) then 1 else 0)

/-- A response body wrapped in a json-labelled fence, each fence on its own line. -/
def fenceJson (s : List Char) : List Char := jfence ++ ('\n' :: (s ++ '\n' :: bt3))

/-- A response body wrapped in a bare (unlabelled) fence, each fence on its own line. -/
def fenceBare (s : List Char) : List Char := bt3 ++ ('\n' :: (s ++ '\n' :: bt3))

/-! ### Concrete instantiations used to exercise the theorems -/

/-- An environment holding a nonempty API credential. -/
def sampleEnv : String → Option String :=
  fun k => if k == "ANTHROPIC_API_KEY" then some "test-key" else none

/-- An environment with no variables set. -/
def emptyEnv : String → Option String := fun _ => none

/-- A filesystem on which every path exists. -/
def allFiles : String → Bool := fun _ => true

/-- A filesystem on which no path exists. -/
def noFiles : String → Bool := fun _ => false

/-- A filesystem holding the three screenshots of one book chapter. -/
def sampleFs : String → Bool := fun p =>
  p == "/tmp/reader-tests/ref_frankenstein_ch1.png" ||
  p == "/tmp/reader-tests/ios_frankenstein_ch1_html.png" ||
  p == "/tmp/reader-tests/ios_frankenstein_ch1_native.png"

/-- Image dimensions of the three sample screenshots (the scenario of spec
section 8: heights 800, 1000, 1200 and widths 400, 500, 600). -/
def sampleDims : String → Nat × Nat := fun p =>
  if p == "/tmp/reader-tests/ref_frankenstein_ch1.png" then (400, 800)
  else if p == "/tmp/reader-tests/ios_frankenstein_ch1_html.png" then (500, 1000)
  else (600, 1200)

/-- A text-width measure standing for one loaded font. -/
def sampleTw : String → Nat := fun s => s.length * 16

/-- A text-width measure standing for a different font (or different labels). -/
def sampleTw2 : String → Nat := fun s => s.length * 7 + 3

/-! ## Helper lemmas -/

theorem resolveSet_length (fe : String → Bool) (dims : String → Nat × Nat)
    (book chapter dir : String) :
    (resolveSet fe dims book chapter dir).length = roleResolvedCount fe book chapter dir := by
  unfold resolveSet roleResolvedCount
  by_cases h1 : fe (pjoin dir (refName book chapter)) <;>
    by_cases h2 : fe (pjoin dir (htmlName book chapter)) <;>
      by_cases h3 : fe (pjoin dir (fallbackName book chapter)) <;>
        by_cases h4 : fe (pjoin dir (nativeName book chapter)) <;>
          simp [h1, h2, h3, h4]

/-! ## Composer claims -/

/-- C6: for every screenshot set in which fewer than two of the three roles
(reference, HTML candidate with its fallback name, native candidate) resolve to
existing files, `compose_comparison` stops with a non-zero exit status
(`sys.exit(1)`, modelled by `none`) and writes no output file. -/
theorem c6_too_few_images_aborts (pillow : Bool) (fe : String → Bool)
    (dims : String → Nat × Nat) (tw : String → Nat) (book chapter dir : String)
    (h : roleResolvedCount fe book chapter dir < 2) :
    composeComparison pillow fe dims tw book chapter dir = none := by
  unfold composeComparison
  cases pillow
  · simp
  · simp only [Bool.not_true, Bool.false_eq_true, if_false]
    rw [if_pos (by rw [resolveSet_length]; exact h)]

/-- C5: for every screenshot set with at least two resolvable images, the
composed canvas width is the sum of the (possibly rescaled) image widths plus
padding times (image count + 1), and its height is the maximum input image
height plus the label-band height plus twice the padding, with padding 20 and
label band 60. -/
theorem c5_canvas_dimensions (fe : String → Bool) (dims : String → Nat × Nat)
    (tw : String → Nat) (book chapter dir : String)
    (h2 : 2 ≤ (resolveSet fe dims book chapter dir).length) :
    ∃ out, composeComparison true fe dims tw book chapter dir = some out ∧
      out.width =
        (((resolveSet fe dims book chapter dir).map Prod.fst).map
            (fun img =>
              (resizeTo (maxHeight ((resolveSet fe dims book chapter dir).map Prod.fst)) img).1)).sum
          + 20 * ((resolveSet fe dims book chapter dir).length + 1) ∧
      out.height =
        maxHeight ((resolveSet fe dims book chapter dir).map Prod.fst) + 60 + 2 * 20 := by
  unfold composeComparison
  rw [if_neg (by simp)]
  rw [if_neg (Nat.not_lt.mpr h2)]
  refine ⟨_, rfl, ?_, ?_⟩
  · simp [List.map_map, List.length_map, padding, Function.comp_def]
  · simp [labelHeight, padding]

/-- C8: in the Composer's height normalization, an input image whose height
already equals the maximum input height passes through unrescaled, and every
other input image is scaled to the maximum height with its width multiplied by
the same ratio. -/
theorem c8_resize_normalization (imgs : List (Nat × Nat)) (img : Nat × Nat)
    (hmem : img ∈ imgs) (hpos : 0 < img.2) :
    (img.2 = maxHeight imgs → resizeTo (maxHeight imgs) img = img) ∧
    (img.2 ≠ maxHeight imgs →
      resizeTo (maxHeight imgs) img = (img.1 * maxHeight imgs / img.2, maxHeight imgs)) := by
  constructor <;> intro h <;> simp [resizeTo, h]

/-- C10: the composed canvas dimensions depend only on the resolved images and
the fixed layout constants.  Two runs over the same files with different text
measurement (the only channel through which the loaded font or the label texts
can influence the run) produce canvases of equal width and height. -/
theorem c10_canvas_independent_of_font (pillow : Bool) (fe : String → Bool)
    (dims : String → Nat × Nat) (tw1 tw2 : String → Nat) (book chapter dir : String)
    (out1 out2 : ComposeOutput)
    (h1 : composeComparison pillow fe dims tw1 book chapter dir = some out1)
    (h2 : composeComparison pillow fe dims tw2 book chapter dir = some out2) :
    out1.width = out2.width ∧ out1.height = out2.height := by
  unfold composeComparison at h1 h2
  cases pillow
  · simp at h1
  · simp only [Bool.not_true, Bool.false_eq_true, if_false] at h1 h2
    by_cases hl : (resolveSet fe dims book chapter dir).length < 2
    · rw [if_pos hl] at h1
      exact absurd h1 (by simp)
    · rw [if_neg hl] at h1 h2
      rw [Option.some_inj] at h1 h2
      rw [← h1, ← h2]
      exact ⟨rfl, rfl⟩

/-! ## Judge claims: configuration errors -/

/-- C7: when the API-credential environment variable is unset or empty and both
input images exist, the Judge exits fatally (code 1) before any network call is
attempted, producing no report. -/
theorem c7_missing_credential_no_network (inst : Bool) (env : String → Option String)
    (fe : String → Bool) (parse : String → Except String JValue)
    (service refP iosP : String)
    (hkey : env "ANTHROPIC_API_KEY" = none ∨ env "ANTHROPIC_API_KEY" = some "")
    (href : fe refP = true) (hios : fe iosP = true) :
    mainJudge inst env fe parse service refP iosP = .exited 1 false none := by
  have hcred : credentialPresent env = false := by
    rcases hkey with h | h <;> simp [credentialPresent, h]
  unfold mainJudge compareScreenshots
  rw [href, hios]
  cases inst <;> simp [hcred]

/-! ## Judge helper lemmas -/

theorem isOverall_unique (r : JValue) {s t : String}
    (hs : isOverall r s = true) (ht : isOverall r t = true) : s = t := by
  unfold isOverall at hs ht
  cases hg : dictGet r "overall" with
  | none => rw [hg] at hs; simp at hs
  | some v =>
    rw [hg] at hs ht
    cases v <;> simp at hs ht
    rw [← hs, ← ht]

theorem judge_run_error (env : String → Option String) (fe : String → Bool)
    (parse : String → Except String JValue) (service refP iosP e : String)
    (hcred : credentialPresent env = true) (href : fe refP = true) (hios : fe iosP = true)
    (he : parse (extractJson service) = .error e) :
    mainJudge true env fe parse service refP iosP =
      .exited 3 true (some (.jobj
        [("overall", .jstr "ERROR"),
         ("raw_response", .jstr service),
         ("parse_error", .jstr e),
         ("_metadata", .jobj [("reference_path", .jstr refP), ("ios_path", .jstr iosP)])])) := by
  unfold mainJudge compareScreenshots compareResult
  rw [href, hios, hcred, he]
  rfl

theorem judge_run_ok_obj (env : String → Option String) (fe : String → Bool)
    (parse : String → Except String JValue) (service refP iosP : String)
    (ms : List (String × JValue))
    (hcred : credentialPresent env = true) (href : fe refP = true) (hios : fe iosP = true)
    (ho : parse (extractJson service) = .ok (.jobj ms)) :
    ∃ fields, mainJudge true env fe parse service refP iosP =
      .exited (exitCodeOf (.jobj fields)) true (some (.jobj fields)) := by
  unfold mainJudge compareScreenshots compareResult
  rw [href, hios, hcred, ho]
  exact ⟨_, rfl⟩

theorem mainJudge_code_of_report (inst : Bool) (env : String → Option String)
    (fe : String → Bool) (parse : String → Except String JValue)
    (service refP iosP : String) (r : JValue) (code : Nat) (net : Bool)
    (h : mainJudge inst env fe parse service refP iosP = .exited code net (some r)) :
    code = exitCodeOf r := by
  unfold mainJudge at h
  split at h
  · simp at h
  · split at h
    · simp at h
    · split at h
      · simp at h
      · simp at h
      · split at h
        · simp at h
        · simp at h
          rw [← h.2.2, h.1]

/-! ## Judge claims: exit codes and degradation -/

/-- C3: for every report produced by one Judge invocation, the process exit code
is exactly 0 when the overall classification is PASS, 2 when it is MAJOR_DIFF,
3 when it is ERROR, and 1 for any other classification, including a missing or
non-string overall field. -/
theorem c3_exit_code_mapping (inst : Bool) (env : String → Option String)
    (fe : String → Bool) (parse : String → Except String JValue)
    (service refP iosP : String) (r : JValue) (code : Nat) (net : Bool)
    (h : mainJudge inst env fe parse service refP iosP = .exited code net (some r)) :
    (isOverall r "PASS" = true → code = 0) ∧
    (isOverall r "MAJOR_DIFF" = true → code = 2) ∧
    (isOverall r "ERROR" = true → code = 3) ∧
    (isOverall r "PASS" = false → isOverall r "MAJOR_DIFF" = false →
      isOverall r "ERROR" = false → code = 1) := by
  have hc : code = exitCodeOf r :=
    mainJudge_code_of_report inst env fe parse service refP iosP r code net h
  subst hc
  refine ⟨fun hp => by simp [exitCodeOf, hp], fun hm => ?_, fun he => ?_,
    fun hp hm he => by simp [exitCodeOf, hp, hm, he]⟩
  · have hp : isOverall r "PASS" = false := by
      cases hps : isOverall r "PASS"
      · rfl
      · exact absurd (isOverall_unique r hps hm) (by decide)
    simp [exitCodeOf, hp, hm]
  · have hp : isOverall r "PASS" = false := by
      cases hps : isOverall r "PASS"
      · rfl
      · exact absurd (isOverall_unique r hps he) (by decide)
    have hm : isOverall r "MAJOR_DIFF" = false := by
      cases hms : isOverall r "MAJOR_DIFF"
      · rfl
      · exact absurd (isOverall_unique r hms he) (by decide)
    simp [exitCodeOf, hp, hm, he]

/-- Witness for C3: a NEEDS_WORK response exits with code 1. -/
theorem c3_exit_code_mapping_witness :
    (isOverall (.jobj [("overall", .jstr "NEEDS_WORK"),
        ("_metadata", .jobj [("reference_path", .jstr "r.png"), ("ios_path", .jstr "i.png")])])
      "PASS" = true → (1 : Nat) = 0) ∧
    (isOverall (.jobj [("overall", .jstr "NEEDS_WORK"),
        ("_metadata", .jobj [("reference_path", .jstr "r.png"), ("ios_path", .jstr "i.png")])])
      "MAJOR_DIFF" = true → (1 : Nat) = 2) ∧
    (isOverall (.jobj [("overall", .jstr "NEEDS_WORK"),
        ("_metadata", .jobj [("reference_path", .jstr "r.png"), ("ios_path", .jstr "i.png")])])
      "ERROR" = true → (1 : Nat) = 3) ∧
    (isOverall (.jobj [("overall", .jstr "NEEDS_WORK"),
        ("_metadata", .jobj [("reference_path", .jstr "r.png"), ("ios_path", .jstr "i.png")])])
      "PASS" = false →
     isOverall (.jobj [("overall", .jstr "NEEDS_WORK"),
        ("_metadata", .jobj [("reference_path", .jstr "r.png"), ("ios_path", .jstr "i.png")])])
      "MAJOR_DIFF" = false →
     isOverall (.jobj [("overall", .jstr "NEEDS_WORK"),
        ("_metadata", .jobj [("reference_path", .jstr "r.png"), ("ios_path", .jstr "i.png")])])
      "ERROR" = false → (1 : Nat) = 1) :=
  c3_exit_code_mapping true sampleEnv allFiles jsonParse
    "\x7b\"overall\": \"NEEDS_WORK\"\x7d" "r.png" "i.png" _ 1 true rfl

/-- C4: for every service response whose extracted candidate is not valid JSON,
the Judge does not raise: it produces the report with overall ERROR carrying the
full raw response text and the parse-error description, and exits with code 3. -/
theorem c4_parse_failure_degrades (env : String → Option String) (fe : String → Bool)
    (parse : String → Except String JValue) (service refP iosP e : String)
    (hcred : credentialPresent env = true) (href : fe refP = true) (hios : fe iosP = true)
    (he : parse (extractJson service) = .error e) :
    mainJudge true env fe parse service refP iosP =
      .exited 3 true (some (.jobj
        [("overall", .jstr "ERROR"),
         ("raw_response", .jstr service),
         ("parse_error", .jstr e),
         ("_metadata", .jobj [("reference_path", .jstr refP), ("ios_path", .jstr iosP)])])) :=
  judge_run_error env fe parse service refP iosP e hcred href hios he

/-- Witness for C4: the unparsable response text of spec section 8. -/
theorem c4_parse_failure_degrades_witness :
    mainJudge true sampleEnv allFiles jsonParse "not json at all" "r.png" "i.png" =
      .exited 3 true (some (.jobj
        [("overall", .jstr "ERROR"),
         ("raw_response", .jstr "not json at all"),
         ("parse_error", .jstr "Expecting value"),
         ("_metadata", .jobj [("reference_path", .jstr "r.png"), ("ios_path", .jstr "i.png")])])) :=
  c4_parse_failure_degrades sampleEnv allFiles jsonParse "not json at all"
    "r.png" "i.png" "Expecting value" rfl rfl rfl rfl

/-- C1 as stated is violated: the judgment service can return text that is
valid JSON but not a JSON object — here the text 42 — in which case the parsed
result is an int, and the metadata item assignment in main raises an uncaught
TypeError (modelled by `MainResult.raised`): the run crashes instead of
producing a degraded report. -/
theorem c1_counterexample :
    mainJudge true sampleEnv allFiles jsonParse "42" "ref.png" "ios.png" = .raised true := by
  rfl

/-- C1 amended: for every response text whose extracted candidate either fails
to parse as JSON or parses to a JSON object, the compare-and-report pipeline
(compare_screenshots followed by metadata augmentation and serialization in
main) produces a well-formed report without raising: either the parsed verdict
object or a degraded report with an ERROR classification. -/
theorem c1_pipeline_wellformed (env : String → Option String) (fe : String → Bool)
    (parse : String → Except String JValue) (service refP iosP : String)
    (hcred : credentialPresent env = true) (href : fe refP = true) (hios : fe iosP = true)
    (hshape : (∃ ms, parse (extractJson service) = .ok (.jobj ms)) ∨
              (∃ e, parse (extractJson service) = .error e)) :
    ∃ fields code, mainJudge true env fe parse service refP iosP =
        .exited code true (some (.jobj fields)) ∧
      ((∃ ms, parse (extractJson service) = .ok (.jobj ms)) ∨
        isOverall (.jobj fields) "ERROR" = true) := by
  rcases hshape with ⟨ms, ho⟩ | ⟨e, he⟩
  · obtain ⟨fields, hrun⟩ :=
      judge_run_ok_obj env fe parse service refP iosP ms hcred href hios ho
    exact ⟨fields, _, hrun, .inl ⟨ms, ho⟩⟩
  · rw [judge_run_error env fe parse service refP iosP e hcred href hios he]
    exact ⟨_, 3, rfl, .inr rfl⟩

/-- Witness for the amended C1: an unparsable response degrades to an ERROR
report rather than a crash. -/
theorem c1_pipeline_wellformed_witness :
    ∃ fields code, mainJudge true sampleEnv allFiles jsonParse "not json at all"
        "r.png" "i.png" = .exited code true (some (.jobj fields)) ∧
      ((∃ ms, jsonParse (extractJson "not json at all") = .ok (.jobj ms)) ∨
        isOverall (.jobj fields) "ERROR" = true) :=
  c1_pipeline_wellformed sampleEnv allFiles jsonParse "not json at all" "r.png" "i.png"
    rfl rfl rfl (.inr ⟨"Expecting value", rfl⟩)

/-- Witness for C5: the concrete scenario of spec section 8 (heights 800, 1000,
1200 and widths 400, 500, 600, giving a 1880 by 1300 canvas). -/
theorem c5_canvas_dimensions_witness :
    ∃ out, composeComparison true sampleFs sampleDims sampleTw "frankenstein" "1"
        "/tmp/reader-tests" = some out ∧
      out.width =
        (((resolveSet sampleFs sampleDims "frankenstein" "1" "/tmp/reader-tests").map
              Prod.fst).map
            (fun img =>
              (resizeTo
                (maxHeight
                  ((resolveSet sampleFs sampleDims "frankenstein" "1"
                      "/tmp/reader-tests").map Prod.fst)) img).1)).sum
          + 20 * ((resolveSet sampleFs sampleDims "frankenstein" "1"
              "/tmp/reader-tests").length + 1) ∧
      out.height =
        maxHeight ((resolveSet sampleFs sampleDims "frankenstein" "1"
            "/tmp/reader-tests").map Prod.fst) + 60 + 2 * 20 :=
  c5_canvas_dimensions sampleFs sampleDims sampleTw "frankenstein" "1" "/tmp/reader-tests"
    (by decide)

/-- Witness for C6: with no screenshots on disk the Composer aborts. -/
theorem c6_too_few_images_aborts_witness :
    composeComparison true noFiles sampleDims sampleTw "frankenstein" "1"
      "/tmp/reader-tests" = none :=
  c6_too_few_images_aborts true noFiles sampleDims sampleTw "frankenstein" "1"
    "/tmp/reader-tests" (by decide)

/-- Witness for C7: an unset credential with both inputs present exits fatally
with no network call. -/
theorem c7_missing_credential_no_network_witness :
    mainJudge true emptyEnv allFiles jsonParse "resp" "r.png" "i.png" =
      .exited 1 false none :=
  c7_missing_credential_no_network true emptyEnv allFiles jsonParse "resp" "r.png" "i.png"
    (.inl rfl) rfl rfl

/-- Witness for C8: of the images (400, 800) and (600, 1200), the first is
rescaled to width 600 at the maximum height 1200 and the second is untouched. -/
theorem c8_resize_normalization_witness :
    (((400, 800) : Nat × Nat).2 = maxHeight [(400, 800), (600, 1200)] →
      resizeTo (maxHeight [(400, 800), (600, 1200)]) (400, 800) = (400, 800)) ∧
    (((400, 800) : Nat × Nat).2 ≠ maxHeight [(400, 800), (600, 1200)] →
      resizeTo (maxHeight [(400, 800), (600, 1200)]) (400, 800) =
        (400 * maxHeight [(400, 800), (600, 1200)] / 800,
          maxHeight [(400, 800), (600, 1200)])) :=
  c8_resize_normalization [(400, 800), (600, 1200)] (400, 800) (by decide) (by decide)

/-- Witness for C10: two runs over the same screenshots with different text
measures produce the same 1880 by 1300 canvas. -/
theorem c10_canvas_independent_of_font_witness :
    (⟨1880, 1300, [168, 796, 1480],
        "/tmp/reader-tests/comparison_frankenstein_ch1.png"⟩ : ComposeOutput).width =
      (⟨1880, 1300, [252, 875, 1523],
        "/tmp/reader-tests/comparison_frankenstein_ch1.png"⟩ : ComposeOutput).width ∧
    (⟨1880, 1300, [168, 796, 1480],
        "/tmp/reader-tests/comparison_frankenstein_ch1.png"⟩ : ComposeOutput).height =
      (⟨1880, 1300, [252, 875, 1523],
        "/tmp/reader-tests/comparison_frankenstein_ch1.png"⟩ : ComposeOutput).height :=
  c10_canvas_independent_of_font true sampleFs sampleDims sampleTw sampleTw2
    "frankenstein" "1" "/tmp/reader-tests" _ _ (by decide) (by decide)

/-! ## Judge claim: unclosed fence -/

theorem drop_dropLast (t : List Char) (a : Nat) :
    t.dropLast.drop a = (t.drop a).dropLast := by
  rw [List.dropLast_eq_take, List.dropLast_eq_take, List.drop_take]
  congr 1
  rw [List.length_drop]
  omega

/-- C9: when the response contains the json fence marker but no closing fence
after it, `find` returns -1 and the Python slice with a -1 end index keeps the
text following the marker with its final character removed (then stripped),
rather than the full remainder of the response. -/
theorem c9_unclosed_fence_slice (t : List Char) (k : Nat)
    (hk : search jfence t = some k)
    (hno : search bt3 (t.drop (k + 7)) = none) :
    extractJsonL t = pyStripL ((t.drop (k + 7)).dropLast) := by
  have h2 : pyFindFrom t bt3 (k + 7) = -1 := by
    unfold pyFindFrom
    rw [hno]
  have h1 : extractJsonL t = pyStripL (pySlice t (k + 7) (-1)) := by
    unfold extractJsonL
    rw [hk]
    show pyStripL (pySlice t (k + 7) (pyFindFrom t bt3 (k + 7))) = _
    rw [h2]
  rw [h1]
  simp only [pySlice]
  rw [if_pos (by omega)]
  have he : (((t.length : Int) + (-1)).toNat) = t.length - 1 := by omega
  rw [he, ← List.dropLast_eq_take, drop_dropLast]

/-- Witness for C9: a response opening a json fence and never closing it. -/
theorem c9_unclosed_fence_slice_witness :
    extractJsonL ("```json x").data =
      pyStripL ((("```json x").data.drop (0 + 7)).dropLast) :=
  c9_unclosed_fence_slice ("```json x").data 0 (by decide) (by decide)

/-! ## Fence-search lemmas for the extraction claim -/

theorem search_of_isPrefixOf (pat t : List Char) (hne : pat ≠ [])
    (h : pat.isPrefixOf t = true) : search pat t = some 0 := by
  cases t with
  | nil =>
    cases pat with
    | nil => exact absurd rfl hne
    | cons a as => simp [List.isPrefixOf] at h
  | cons c r =>
    simp only [search]
    rw [if_pos h]

theorem search_cons_skip (pat : List Char) (c : Char) (r : List Char)
    (h : pat.isPrefixOf (c :: r) = false) :
    search pat (c :: r) = (search pat r).map (· + 1) := by
  simp only [search]
  rw [h]
  simp

theorem search_none_parts (pat : List Char) (c : Char) (r : List Char)
    (h : search pat (c :: r) = none) :
    pat.isPrefixOf (c :: r) = false ∧ search pat r = none := by
  simp only [search] at h
  by_cases hp : pat.isPrefixOf (c :: r) = true
  · rw [if_pos hp] at h
    simp at h
  · rw [if_neg hp] at h
    refine ⟨?_, ?_⟩
    · cases hv : pat.isPrefixOf (c :: r)
      · rfl
      · exact absurd hv hp
    · cases hsr : search pat r with
      | none => rfl
      | some k => rw [hsr] at h; simp at h

theorem bt3_prefixOf_iff (t : List Char) :
    bt3.isPrefixOf t = true ↔ bt3 <+: t :=
  List.isPrefixOf_iff_prefix

theorem bt3_prefix_jfence : bt3 <+: jfence := by
  rw [show jfence = bt3 ++ ['j', 's', 'o', 'n'] from rfl]
  exact List.prefix_append _ _

theorem bt3_not_prefix_pad (c : Char) (s' : List Char)
    (h : search bt3 (c :: s') = none) :
    bt3.isPrefixOf (c :: (s' ++ '\n' :: bt3)) = false := by
  obtain ⟨hp, _⟩ := search_none_parts bt3 c s' h
  cases s' with
  | nil =>
    by_contra hcon
    rw [Bool.not_eq_false, bt3_prefixOf_iff] at hcon
    simp only [List.nil_append, bt3, List.cons_prefix_cons] at hcon
    exact absurd hcon.2.1 (by decide)
  | cons a s'' =>
    cases s'' with
    | nil =>
      by_contra hcon
      rw [Bool.not_eq_false, bt3_prefixOf_iff] at hcon
      simp only [List.cons_append, List.nil_append, bt3, List.cons_prefix_cons] at hcon
      exact absurd hcon.2.2.1 (by decide)
    | cons b s3 =>
      by_contra hcon
      rw [Bool.not_eq_false, bt3_prefixOf_iff] at hcon
      simp only [List.cons_append, bt3, List.cons_prefix_cons] at hcon
      have htrue : bt3.isPrefixOf (c :: a :: b :: s3) = true := by
        rw [bt3_prefixOf_iff]
        simp only [bt3, List.cons_prefix_cons]
        exact ⟨hcon.1, hcon.2.1, hcon.2.2.1, List.nil_prefix⟩
      rw [htrue] at hp
      simp at hp

theorem search_bt3_append_close (s : List Char) (h : search bt3 s = none) :
    search bt3 (s ++ '\n' :: bt3) = some (s.length + 1) := by
  induction s with
  | nil =>
    simp only [List.nil_append]
    decide
  | cons c s' ih =>
    obtain ⟨hp, hs'⟩ := search_none_parts bt3 c s' h
    rw [List.cons_append, search_cons_skip bt3 c _ (bt3_not_prefix_pad c s' h),
      ih hs']
    simp

theorem search_jfence_of_bt3_none (s : List Char) (h : search bt3 s = none) :
    search jfence s = none := by
  induction s with
  | nil => rfl
  | cons c r ih =>
    obtain ⟨hp, hr⟩ := search_none_parts bt3 c r h
    have hjp : jfence.isPrefixOf (c :: r) = false := by
      by_contra hcon
      rw [Bool.not_eq_false, List.isPrefixOf_iff_prefix] at hcon
      have h3 : bt3.isPrefixOf (c :: r) = true := by
        rw [bt3_prefixOf_iff]
        exact bt3_prefix_jfence.trans hcon
      rw [h3] at hp
      simp at hp
    rw [search_cons_skip jfence c r hjp, ih hr]
    rfl

theorem search_jfence_append_close (s : List Char) (h : search bt3 s = none) :
    search jfence (s ++ '\n' :: bt3) = none := by
  induction s with
  | nil =>
    simp only [List.nil_append]
    decide
  | cons c s' ih =>
    obtain ⟨hp, hs'⟩ := search_none_parts bt3 c s' h
    have hj : jfence.isPrefixOf (c :: (s' ++ '\n' :: bt3)) = false := by
      by_contra hcon
      rw [Bool.not_eq_false, List.isPrefixOf_iff_prefix] at hcon
      have h3 : bt3.isPrefixOf (c :: (s' ++ '\n' :: bt3)) = true := by
        rw [bt3_prefixOf_iff]
        exact bt3_prefix_jfence.trans hcon
      rw [bt3_not_prefix_pad c s' h] at h3
      simp at h3
    rw [List.cons_append, search_cons_skip jfence c _ hj, ih hs']
    rfl

/-! ## Strip lemmas -/

theorem pyStripL_cons_space (c : Char) (t : List Char) (h : isPySpace c = true) :
    pyStripL (c :: t) = pyStripL t := by
  unfold pyStripL
  rw [List.dropWhile_cons, if_pos h]

theorem dropTrailing_append_space (c : Char) (t : List Char) (h : isPySpace c = true) :
    dropTrailing (t ++ [c]) = dropTrailing t := by
  unfold dropTrailing
  rw [List.reverse_append]
  simp [List.dropWhile_cons, h]

theorem pyStripL_append_space (c : Char) (t : List Char) (h : isPySpace c = true) :
    pyStripL (t ++ [c]) = pyStripL t := by
  unfold pyStripL
  rw [List.dropWhile_append]
  by_cases he : (t.dropWhile isPySpace).isEmpty
  · rw [if_pos he]
    rw [List.isEmpty_iff] at he
    rw [he]
    simp [List.dropWhile_cons, h]
  · rw [if_neg he]
    exact dropTrailing_append_space c _ h

theorem pyStripL_pad (s : List Char) :
    pyStripL ('\n' :: (s ++ ['\n'])) = pyStripL s := by
  rw [pyStripL_cons_space _ _ (by decide), pyStripL_append_space _ _ (by decide)]

/-! ## Extraction on the three response shapes -/

theorem extractJsonL_fenceJson (s : List Char) (h : search bt3 s = none) :
    extractJsonL (fenceJson s) = pyStripL s := by
  have h0 : search jfence (fenceJson s) = some 0 := by
    apply search_of_isPrefixOf _ _ (by decide)
    rw [ List.isPrefixOf_iff_prefix]
    unfold fenceJson
    exact List.prefix_append _ _
  have hdrop : (fenceJson s).drop 7 = '\n' :: (s ++ '\n' :: bt3) := by
    unfold fenceJson
    rw [show (7 : Nat) = jfence.length from rfl, List.drop_left]
  have h1 : search bt3 ((fenceJson s).drop 7) = some (s.length + 2) := by
    rw [hdrop]
    have hnp : bt3.isPrefixOf ('\n' :: (s ++ '\n' :: bt3)) = false := by
      simp [bt3, List.isPrefixOf, show (bq == '\n') = false from by decide]
    rw [search_cons_skip bt3 _ _ hnp, search_bt3_append_close s h]
    simp
  have h2 : pyFindFrom (fenceJson s) bt3 (0 + 7) = ((s.length + 9 : Nat) : Int) := by
    unfold pyFindFrom
    rw [show (0 + 7 : Nat) = 7 from rfl, h1]
    show ((7 + (s.length + 2) : Nat) : Int) = ((s.length + 9 : Nat) : Int)
    congr 1
    omega
  unfold extractJsonL
  rw [h0]
  show pyStripL (pySlice (fenceJson s) (0 + 7) (pyFindFrom (fenceJson s) bt3 (0 + 7))) =
    pyStripL s
  rw [h2]
  simp only [pySlice]
  rw [if_neg (by omega)]
  have htn : ((s.length + 9 : Nat) : Int).toNat = s.length + 9 := by omega
  rw [htn]
  have htake : (fenceJson s).take (s.length + 9) = jfence ++ ('\n' :: (s ++ ['\n'])) := by
    unfold fenceJson
    have hsplit : s.length + 9 = jfence.length + (s.length + 2) := by
      rw [show jfence.length = 7 from rfl]
      omega
    rw [hsplit, List.take_append]
    congr 1
    rw [List.take_succ_cons]
    congr 1
    rw [List.take_append]
    rfl
  rw [htake, show (0 + 7 : Nat) = jfence.length from rfl, List.drop_left]
  exact pyStripL_pad s

theorem extractJsonL_fenceBare (s : List Char) (h : search bt3 s = none) :
    extractJsonL (fenceBare s) = pyStripL s := by
  have hshape : fenceBare s = bq :: (bq :: (bq :: ('\n' :: (s ++ '\n' :: bt3)))) := rfl
  have h0 : search jfence (fenceBare s) = none := by
    rw [hshape]
    have hb : (bq == '\n') = false := by decide
    have hj : (('j' : Char) == '\n') = false := by decide
    rw [search_cons_skip jfence _ _
          (by simp [jfence, List.isPrefixOf, hj]),
        search_cons_skip jfence _ _
          (by simp [jfence, List.isPrefixOf, hb]),
        search_cons_skip jfence _ _
          (by simp [jfence, List.isPrefixOf, hb]),
        search_cons_skip jfence _ _
          (by simp [jfence, List.isPrefixOf, hb]),
        search_jfence_append_close s h]
    rfl
  have h1 : search bt3 (fenceBare s) = some 0 := by
    apply search_of_isPrefixOf _ _ (by decide)
    rw [ List.isPrefixOf_iff_prefix]
    unfold fenceBare
    exact List.prefix_append _ _
  have hdrop : (fenceBare s).drop 3 = '\n' :: (s ++ '\n' :: bt3) := by
    unfold fenceBare
    rw [show (3 : Nat) = bt3.length from rfl, List.drop_left]
  have h2 : search bt3 ((fenceBare s).drop 3) = some (s.length + 2) := by
    rw [hdrop]
    have hnp : bt3.isPrefixOf ('\n' :: (s ++ '\n' :: bt3)) = false := by
      simp [bt3, List.isPrefixOf, show (bq == '\n') = false from by decide]
    rw [search_cons_skip bt3 _ _ hnp, search_bt3_append_close s h]
    simp
  have h3 : pyFindFrom (fenceBare s) bt3 (0 + 3) = ((s.length + 5 : Nat) : Int) := by
    unfold pyFindFrom
    rw [show (0 + 3 : Nat) = 3 from rfl, h2]
    show ((3 + (s.length + 2) : Nat) : Int) = ((s.length + 5 : Nat) : Int)
    congr 1
    omega
  unfold extractJsonL
  rw [h0, h1]
  show pyStripL (pySlice (fenceBare s) (0 + 3) (pyFindFrom (fenceBare s) bt3 (0 + 3))) =
    pyStripL s
  rw [h3]
  simp only [pySlice]
  rw [if_neg (by omega)]
  have htn : ((s.length + 5 : Nat) : Int).toNat = s.length + 5 := by omega
  rw [htn]
  have htake : (fenceBare s).take (s.length + 5) = bt3 ++ ('\n' :: (s ++ ['\n'])) := by
    unfold fenceBare
    have hsplit : s.length + 5 = bt3.length + (s.length + 2) := by
      rw [show bt3.length = 3 from rfl]
      omega
    rw [hsplit, List.take_append]
    congr 1
    rw [List.take_succ_cons]
    congr 1
    rw [List.take_append]
    rfl
  rw [htake, show (0 + 3 : Nat) = bt3.length from rfl, List.drop_left]
  exact pyStripL_pad s

theorem extractJsonL_nofence (s : List Char) (h : search bt3 s = none) :
    extractJsonL s = pyStripL s := by
  unfold extractJsonL
  rw [search_jfence_of_bt3_none s h, h]

/-! ## Extraction claim -/

/-- C2 fails as stated: the JSON object string with body key k and value a
three-backtick string is a valid JSON object, yet when it arrives bare (with no
fence around it) the extraction logic mistakes its embedded backticks for a
fence and extracts a single quote character instead of the trimmed object. -/
theorem c2_counterexample :
    (∃ ms, jsonParse "\x7b\"k\": \"```\"\x7d" = .ok (.jobj ms)) ∧
    extractJsonL ("\x7b\"k\": \"```\"\x7d").data ≠
      pyStripL ("\x7b\"k\": \"```\"\x7d").data :=
  ⟨⟨[("k", .jstr "```")], rfl⟩, by decide⟩

/-- C2 amended: for any JSON object string in which the triple-backtick fence
marker does not occur, a response equal to that string wrapped in a json fence,
wrapped in a bare fence, or sent bare yields in all three cases the same
extracted candidate: the trimmed string. -/
theorem c2_extraction_agrees (s : List Char)
    (hjson : ∃ ms, jsonParse (String.mk s) = .ok (.jobj ms))
    (hfree : search bt3 s = none) :
    extractJsonL (fenceJson s) = pyStripL s ∧
    extractJsonL (fenceBare s) = pyStripL s ∧
    extractJsonL s = pyStripL s :=
  ⟨extractJsonL_fenceJson s hfree, extractJsonL_fenceBare s hfree,
    extractJsonL_nofence s hfree⟩

/-- Witness for the amended C2: the empty JSON object. -/
theorem c2_extraction_agrees_witness :
    extractJsonL (fenceJson ("\x7b\x7d").data) = pyStripL ("\x7b\x7d").data ∧
    extractJsonL (fenceBare ("\x7b\x7d").data) = pyStripL ("\x7b\x7d").data ∧
    extractJsonL ("\x7b\x7d").data = pyStripL ("\x7b\x7d").data :=
  c2_extraction_agrees ("\x7b\x7d").data ⟨[], rfl⟩ (by decide)
